import Mathlib

/-!
Verification of the natural-language specification of the ranger-ims-server
excerpt against its code.

Part 1: the Directory Cache Service (the DMS adapter).  The adapter module
itself (ims.directory.clubhouse_db._dms) is not part of the excerpt; only its
tests are.  Its operations are therefore modelled from the spec (sections 3,
4.1 and 7), with the test file test_dms.py fixing concrete expectations
(the fullName examples, the personnel query text, the password hashing step).

Part 2: the Klein application glue (src/src/ims/application/_klein.py) and the
login page element (src/src/ims/element/login.py), embedded directly from the
source.
-/

/-- Modelled from the spec: missing function fullName of
ims.directory.clubhouse_db._dms (only its tests are under src).  Section 4.1:
the composed name is first plus space plus last when the middle name is empty,
otherwise first plus space plus the full middle value plus a period, a space
and last. -/
def fullName (first middle last : String) : String :=
  if middle = "" then first ++ " " ++ last
  else first ++ " " ++ middle ++ ". " ++ last

/-- Person status enumeration from the spec data model (section 3). -/
inductive Status where
  | active
  | inactive
  | vintage
  | auditor
  | other
  deriving DecidableEq, Repr

/-- Modelled from the spec: missing status parsing of the DMS adapter.  The
four statuses named by the personnel query map to their enum values; anything
else is the catch-all other value of the enumeration in section 3. -/
def statusFromString (s : String) : Status :=
  if s = "active" then .active
  else if s = "inactive" then .inactive
  else if s = "vintage" then .vintage
  else if s = "auditor" then .auditor
  else .other

/-- A raw person tuple as returned by the upstream collaborator (section 6):
(id, handle, firstName, middleName, lastName, email, status, onSite,
credential), matching the row shape of cannedPersonnel in test_dms.py. -/
structure RawPerson where
  pid : Nat
  handle : String
  firstName : String
  middleName : String
  lastName : String
  email : String
  status : String
  onSite : Bool
  password : String
  deriving DecidableEq, Repr

/-- A Person record of the spec data model (section 3): identifier, handle,
composed full name, email, status, on-site flag and hashed credential. -/
structure Person where
  pid : Nat
  handle : String
  name : String
  email : String
  status : Status
  onSite : Bool
  password : String
  deriving DecidableEq, Repr

/-- Modelled from the spec: the fetch pipeline transformation of the missing
DMS adapter (section 4.1): a raw tuple becomes a Person record, applying
full-name composition and credential hashing as an explicit transformation
step.  The hash itself is the external hashPassword capability, passed in as a
function argument. -/
def transformPerson (hash : String → String) (r : RawPerson) : Person :=
  { pid := r.pid
    handle := r.handle
    name := fullName r.firstName r.middleName r.lastName
    email := r.email
    status := statusFromString r.status
    onSite := r.onSite
    password := hash r.password }

/-- A snapshot of the spec data model (section 3): an ordered sequence of
Person records plus the fetch timestamp. -/
structure Snapshot where
  people : List Person
  timestamp : Nat
  deriving DecidableEq, Repr

/-- The cache state: an optional current snapshot; none means no fetch has
ever succeeded (section 3 lifecycle). -/
structure Cache where
  snapshot : Option Snapshot
  deriving DecidableEq, Repr

/-- Handle uniqueness check over transformed records: true when no two records
share a handle (the hard invariant of section 4.2 edge cases). -/
def uniqueHandles : List Person → Bool
  | [] => true
  | p :: rest => !(rest.any (fun q => q.handle == p.handle)) && uniqueHandles rest

/-- Handle uniqueness over raw tuples, as the fetch result arrives from
upstream. -/
def uniqueRawHandles : List RawPerson → Bool
  | [] => true
  | r :: rest => !(rest.any (fun q => q.handle == r.handle)) && uniqueRawHandles rest

/-- Error kinds of the spec (section 7): a FetchError either carries the
upstream cause (failure or timeout) or records a violation of the handle
uniqueness invariant. -/
inductive FetchError where
  | upstream (cause : String)
  | duplicateHandle
  deriving DecidableEq, Repr

/-- Modelled from the spec: missing refreshNow operation of the Directory
Cache Service (section 4.1): one forced fetch; on success with unique handles
the new snapshot atomically replaces the old one and its timestamp is
returned; on upstream failure, or when the fetched records contain a duplicate
handle, the existing snapshot is left untouched and a FetchError is returned.
The upstream fetch outcome is passed in as a value. -/
def refreshNow (hash : String → String) (c : Cache) (now : Nat)
    (fetched : Except String (List RawPerson)) : Cache × Except FetchError Nat :=
  match fetched with
  | .error cause => (c, .error (.upstream cause))
  | .ok raws =>
    let people := raws.map (transformPerson hash)
    if uniqueHandles people then
      ({ snapshot := some { people := people, timestamp := now } }, .ok now)
    else
      (c, .error .duplicateHandle)

/-- Modelled from the spec: lookupAll (section 4.1): the current snapshot
records in fetch order, or the empty sequence when no snapshot exists. -/
def lookupAll (c : Cache) : List Person :=
  match c.snapshot with
  | none => []
  | some s => s.people

/-- Modelled from the spec: lookupByHandle (section 4.1): lookup by handle
against the current snapshot; none is the NotFound outcome. -/
def lookupByHandle (c : Cache) (handle : String) : Option Person :=
  (lookupAll c).find? (fun p => p.handle == handle)

/-- The service state for the refresh schedule (section 4.1): the cache plus
whether the background schedule is running. -/
structure Service where
  cache : Cache
  running : Bool
  deriving DecidableEq, Repr

/-- Modelled from the spec: one scheduled tick (section 4.1): when the service
is running, one fetch is attempted and the cache updated through refreshNow,
and the schedule continues regardless of outcome; when stopped, no fetch
occurs.  The returned Bool reports whether an upstream fetch happened. -/
def tick (hash : String → String) (s : Service) (now : Nat)
    (fetched : Except String (List RawPerson)) : Service × Bool :=
  if s.running then
    ({ s with cache := (refreshNow hash s.cache now fetched).1 }, true)
  else
    (s, false)

/-- Modelled from the spec: the stop operation (section 4.1): ends the
background refresh schedule. -/
def stop (s : Service) : Service :=
  { s with running := false }

/-- Run a sequence of scheduled tick events (each a time and an upstream fetch
outcome) and count how many upstream fetches actually fired. -/
def runTicks (hash : String → String) (s : Service)
    (events : List (Nat × Except String (List RawPerson))) : Service × Nat :=
  match events with
  | [] => (s, 0)
  | (now, fetched) :: rest =>
    let step := tick hash s now fetched
    let run := runTicks hash step.1 rest
    (run.1, (if step.2 then 1 else 0) + run.2)

/-- The personnel query of the DMS adapter, whose SQL text appears verbatim in
test_dms.py: select person rows whose status is one of active, inactive,
vintage, auditor. -/
def personnelQuery (table : List RawPerson) : List RawPerson :=
  table.filter (fun r =>
    r.status == "active" || r.status == "inactive" ||
      r.status == "vintage" || r.status == "auditor")

/-- Modelled from the spec: the full personnel fetch of the missing DMS
adapter: run the personnel query against the person table and transform each
selected row into a Person record. -/
def fetchPersonnel (hash : String → String) (table : List RawPerson) : List Person :=
  (personnelQuery table).map (transformPerson hash)

theorem transformPerson_handle (hash : String → String) (r : RawPerson) :
    (transformPerson hash r).handle = r.handle := rfl

theorem any_handle_map_transform (hash : String → String) (h : String)
    (l : List RawPerson) :
    (l.map (transformPerson hash)).any (fun q => q.handle == h) =
      l.any (fun q => q.handle == h) := by
  induction l with
  | nil => rfl
  | cons a t ih =>
    simp only [List.map_cons, List.any_cons, ih, transformPerson_handle]

theorem uniqueHandles_map_transform (hash : String → String) (raws : List RawPerson) :
    uniqueHandles (raws.map (transformPerson hash)) = uniqueRawHandles raws := by
  induction raws with
  | nil => rfl
  | cons r rest ih =>
    simp only [List.map_cons, uniqueHandles, uniqueRawHandles, ih,
      any_handle_map_transform, transformPerson_handle]

/-- C3: fullName composes first, middle and last names: with an empty middle
the result is first, a space and last; with a nonempty middle the full middle
value follows with a period appended; in particular the two examples of
test_dms.py hold. -/
theorem fullName_spec (first middle last : String) :
    (middle = "" → fullName first middle last = first ++ " " ++ last) ∧
    (middle ≠ "" →
      fullName first middle last = first ++ " " ++ middle ++ ". " ++ last) ∧
    fullName "Bob" "" "Smith" = "Bob Smith" ∧
    fullName "Bob" "Q" "Smith" = "Bob Q. Smith" := by
  refine ⟨fun h => ?_, fun h => ?_, by decide, by decide⟩
  · simp [fullName, h]
  · simp [fullName, h]

theorem fullName_spec_witness :
    fullName "Bob" "" "Smith" = "Bob Smith" ∧
    fullName "Bob" "Q" "Smith" = "Bob Q. Smith" :=
  ⟨(fullName_spec "Bob" "" "Smith").1 rfl,
    ((fullName_spec "Bob" "Q" "Smith").2.1 (by decide))⟩

/-- The canned personnel rows of test_dms.py, used as concrete witnesses. -/
def cannedPersonnel : List RawPerson :=
  [ { pid := 1, handle := "Easy E", firstName := "Eric", middleName := "P",
      lastName := "Grant", email := "easye@example.com", status := "active",
      onSite := true, password := "easypass" },
    { pid := 2, handle := "Weso", firstName := "Wes", middleName := "",
      lastName := "Johnson", email := "weso@example.com", status := "active",
      onSite := true, password := "wespass" },
    { pid := 3, handle := "SciFi", firstName := "Fred", middleName := "",
      lastName := "McCord", email := "scifi@example.com", status := "active",
      onSite := true, password := "scipass" },
    { pid := 4, handle := "Slumber", firstName := "Sleepy", middleName := "T",
      lastName := "Dwarf", email := "slumber@example.com", status := "inactive",
      onSite := false, password := "sleepypass" },
    { pid := 5, handle := "Tool", firstName := "Wilfredo", middleName := "",
      lastName := "Sanchez", email := "tool@example.com", status := "vintage",
      onSite := true, password := "toolpass" },
    { pid := 6, handle := "Tulsa", firstName := "Curtis", middleName := "",
      lastName := "Kline", email := "tulsa@example.com", status := "vintage",
      onSite := true, password := "tulsapass" } ]

/-- A concrete nonempty cache used as a witness starting state. -/
def cacheW : Cache :=
  { snapshot := some
      { people := [transformPerson id (cannedPersonnel.get ⟨0, by decide⟩)]
        timestamp := 3 } }

/-- A fetch result with two records sharing the handle of the first canned
row. -/
def rawsDup : List RawPerson :=
  [ cannedPersonnel.get ⟨0, by decide⟩,
    { pid := 7, handle := "Easy E", firstName := "Evil", middleName := "",
      lastName := "Twin", email := "twin@example.com", status := "active",
      onSite := false, password := "twinpass" } ]

/-- C1: a fetch result containing two records with the same handle is rejected
as a whole: refreshNow returns a FetchError and the cache is exactly what it
was before the call, so no record is added, removed or changed. -/
theorem refreshNow_duplicate_rejected (hash : String → String) (c : Cache)
    (now : Nat) (raws : List RawPerson)
    (hdup : uniqueRawHandles raws = false) :
    refreshNow hash c now (.ok raws) = (c, .error .duplicateHandle) := by
  simp [refreshNow, uniqueHandles_map_transform, hdup]

theorem refreshNow_duplicate_rejected_witness :
    refreshNow id cacheW 7 (.ok rawsDup) = (cacheW, .error .duplicateHandle) :=
  refreshNow_duplicate_rejected id cacheW 7 rawsDup (by decide)

/-- C2: after a successful fetch (accepted, so with unique handles), lookupAll
returns exactly the transformed records of that fetch, in fetch order, and the
call reports the new timestamp; lookupAll is a pure function of the cache
value, so the sequence is stable across calls until the snapshot is next
replaced. -/
theorem lookupAll_after_refresh (hash : String → String) (c : Cache) (now : Nat)
    (raws : List RawPerson) (huniq : uniqueRawHandles raws = true) :
    lookupAll (refreshNow hash c now (.ok raws)).1 =
      raws.map (transformPerson hash) ∧
    (refreshNow hash c now (.ok raws)).2 = .ok now := by
  simp [refreshNow, uniqueHandles_map_transform, huniq, lookupAll]

theorem lookupAll_after_refresh_witness :
    lookupAll (refreshNow id cacheW 9 (.ok cannedPersonnel)).1 =
      cannedPersonnel.map (transformPerson id) ∧
    (refreshNow id cacheW 9 (.ok cannedPersonnel)).2 = .ok 9 :=
  lookupAll_after_refresh id cacheW 9 cannedPersonnel (by decide)

/-- C4: on a cache holding no snapshot, lookupByHandle returns none for every
handle; none is the very same NotFound outcome an ordinary lookup miss
produces on a populated cache, not a distinct error. -/
theorem lookupByHandle_empty_cache (c : Cache) (handle : String)
    (h : c.snapshot = none) :
    lookupByHandle c handle = none ∧
    ∀ c2 : Cache, (∀ p ∈ lookupAll c2, p.handle ≠ handle) →
      lookupByHandle c2 handle = none := by
  constructor
  · simp [lookupByHandle, lookupAll, h]
  · intro c2 hmiss
    apply List.find?_eq_none.mpr
    intro p hp
    simpa using hmiss p hp

theorem lookupByHandle_empty_cache_witness :
    lookupByHandle { snapshot := none } "Easy E" = none ∧
    lookupByHandle cacheW "Weso" = none :=
  ⟨(lookupByHandle_empty_cache { snapshot := none } "Easy E" rfl).1,
    (lookupByHandle_empty_cache { snapshot := none } "Weso" rfl).2
      cacheW (by decide)⟩

/-- C5: the credential field of every Person record produced by the fetch
transformation is the hash of the raw credential value, applied as an explicit
pipeline step; consequently, whenever hashing actually changes the plaintext,
the plaintext never appears as the stored credential. -/
theorem transformPerson_password (hash : String → String) (r : RawPerson) :
    (transformPerson hash r).password = hash r.password ∧
    (hash r.password ≠ r.password →
      (transformPerson hash r).password ≠ r.password) :=
  ⟨rfl, fun h => h⟩

theorem transformPerson_password_witness :
    (transformPerson (fun s => "hashed-" ++ s)
        (cannedPersonnel.get ⟨0, by decide⟩)).password =
      "hashed-easypass" ∧
    (transformPerson (fun s => "hashed-" ++ s)
        (cannedPersonnel.get ⟨0, by decide⟩)).password ≠ "easypass" :=
  ⟨(transformPerson_password (fun s => "hashed-" ++ s)
      (cannedPersonnel.get ⟨0, by decide⟩)).1,
    (transformPerson_password (fun s => "hashed-" ++ s)
      (cannedPersonnel.get ⟨0, by decide⟩)).2 (by decide)⟩

/-- C6: the personnel query selects exactly rows whose status string is one of
active, inactive, vintage, auditor, and every Person record produced by the
personnel fetch has its status among the corresponding four values of the
Status enumeration (in particular never the catch-all other). -/
theorem fetchPersonnel_status (hash : String → String) (table : List RawPerson) :
    (∀ r ∈ personnelQuery table,
      r.status = "active" ∨ r.status = "inactive" ∨
        r.status = "vintage" ∨ r.status = "auditor") ∧
    (∀ p ∈ fetchPersonnel hash table,
      p.status = .active ∨ p.status = .inactive ∨
        p.status = .vintage ∨ p.status = .auditor) := by
  constructor
  · intro r hr
    have hcond := List.of_mem_filter hr
    simp only [Bool.or_eq_true, beq_iff_eq] at hcond
    tauto
  · intro p hp
    obtain ⟨r, hr, hpr⟩ := List.mem_map.mp hp
    have hcond := List.of_mem_filter hr
    simp only [Bool.or_eq_true, beq_iff_eq] at hcond
    subst hpr
    have hst : (transformPerson hash r).status = statusFromString r.status := rfl
    rcases hcond with ((h | h) | h) | h <;> (rw [hst, h]; decide)

theorem fetchPersonnel_status_witness :
    ((cannedPersonnel.get ⟨3, by decide⟩).status = "active" ∨
      (cannedPersonnel.get ⟨3, by decide⟩).status = "inactive" ∨
      (cannedPersonnel.get ⟨3, by decide⟩).status = "vintage" ∨
      (cannedPersonnel.get ⟨3, by decide⟩).status = "auditor") :=
  (fetchPersonnel_status id cannedPersonnel).1
    (cannedPersonnel.get ⟨3, by decide⟩) (by decide)

theorem runTicks_stopped (hash : String → String) (s : Service)
    (h : s.running = false)
    (events : List (Nat × Except String (List RawPerson))) :
    runTicks hash s events = (s, 0) := by
  induction events with
  | nil => rfl
  | cons e rest ih =>
    obtain ⟨now, fetched⟩ := e
    simp [runTicks, tick, h, ih]

/-- C7: after stop returns, no upstream fetch ever occurs again, no matter how
many scheduled tick events later elapse (the fetch count over any event
sequence is zero and the service state is unchanged), and stop is
idempotent. -/
theorem stop_no_further_fetch (hash : String → String) (s : Service)
    (events : List (Nat × Except String (List RawPerson))) :
    (runTicks hash (stop s) events).2 = 0 ∧
    (runTicks hash (stop s) events).1 = stop s ∧
    stop (stop s) = stop s := by
  rw [runTicks_stopped hash (stop s) rfl events]
  exact ⟨rfl, rfl, rfl⟩

/-- True when b is a UTF-8 continuation byte (0x80 to 0xBF). -/
def isContinuation (b : Nat) : Bool :=
  0x80 ≤ b && b < 0xC0

/-- UTF-8 decoding of a byte sequence into code points, rejecting truncated
sequences, stray continuation bytes, overlong forms, surrogate code points and
values beyond 0x10FFFF, as the strict mode of Python bytes.decode does. -/
def utf8DecodeCodepoints : List Nat → Option (List Nat)
  | [] => some []
  | b :: rest =>
    if b < 0x80 then
      (utf8DecodeCodepoints rest).map (fun vs => b :: vs)
    else if b < 0xC0 then
      none
    else if b < 0xE0 then
      match rest with
      | b1 :: rest1 =>
        if isContinuation b1 then
          let v := (b - 0xC0) * 0x40 + (b1 - 0x80)
          if 0x80 ≤ v then
            (utf8DecodeCodepoints rest1).map (fun vs => v :: vs)
          else none
        else none
      | [] => none
    else if b < 0xF0 then
      match rest with
      | b1 :: b2 :: rest2 =>
        if isContinuation b1 && isContinuation b2 then
          let v := (b - 0xE0) * 0x1000 + (b1 - 0x80) * 0x40 + (b2 - 0x80)
          if 0x800 ≤ v ∧ (v < 0xD800 ∨ 0xE000 ≤ v) then
            (utf8DecodeCodepoints rest2).map (fun vs => v :: vs)
          else none
        else none
      | _ => none
    else if b < 0xF8 then
      match rest with
      | b1 :: b2 :: b3 :: rest3 =>
        if isContinuation b1 && isContinuation b2 && isContinuation b3 then
          let v := (b - 0xF0) * 0x40000 + (b1 - 0x80) * 0x1000 +
            (b2 - 0x80) * 0x40 + (b3 - 0x80)
          if 0x10000 ≤ v ∧ v ≤ 0x10FFFF then
            (utf8DecodeCodepoints rest3).map (fun vs => v :: vs)
          else none
        else none
      | _ => none
    else
      none

/-- UTF-8 decoding of bytes to a string; none models the Python
UnicodeDecodeError. -/
def utf8Decode (bs : List Nat) : Option String :=
  (utf8DecodeCodepoints bs).map (fun vs => String.mk (vs.map Char.ofNat))

/-- UTF-8 encoding of one code point. -/
def utf8EncodeCodepoint (c : Nat) : List Nat :=
  if c < 0x80 then [c]
  else if c < 0x800 then
    [0xC0 + c / 0x40, 0x80 + c % 0x40]
  else if c < 0x10000 then
    [0xE0 + c / 0x1000, 0x80 + c / 0x40 % 0x40, 0x80 + c % 0x40]
  else
    [0xF0 + c / 0x40000, 0x80 + c / 0x1000 % 0x40, 0x80 + c / 0x40 % 0x40,
      0x80 + c % 0x40]

/-- UTF-8 encoding of a string, as Python str.encode applied with utf-8. -/
def utf8Encode (s : String) : List Nat :=
  s.data.flatMap (fun c => utf8EncodeCodepoint c.toNat)

/-- A request as the handlers in _klein.py see it: the parsed query arguments
(request.args, a mapping from byte-string names to lists of byte-string
values), the raw request URI bytes, and the request headers. -/
structure WebRequest where
  args : List (List Nat × List (List Nat))
  uri : List Nat
  headers : List (String × String)
  deriving DecidableEq, Repr

/-- Python dict.get over the args mapping; dict keys are unique, so the model
returns the first matching entry of the association list. -/
def argsGet (args : List (List Nat × List (List Nat))) (key : List Nat) :
    Option (List (List Nat)) :=
  (args.find? (fun kv => kv.1 == key)).map Prod.snd

/-- Embeds queryValue from src/src/ims/application/_klein.py: look up the
UTF-8 encoding of the name in request.args; when absent, return the default;
when present with a nonempty value list, return the UTF-8 decoding of the last
value (a decode failure raises, modelled as the error case); when present with
an empty value list, return the default. -/
def queryValue (request : WebRequest) (name : String)
    (default : Option String) : Except Unit (Option String) :=
  match argsGet request.args (utf8Encode name) with
  | none => .ok default
  | some values =>
    match values.getLast? with
    | some v =>
      match utf8Decode v with
      | some s => .ok (some s)
      | none => .error ()
    | none => .ok default

/-- C8: queryValue returns the UTF-8 decoding of the last value listed in
request.args under the UTF-8 encoding of the name when that value list is
nonempty, and returns the given default both when the parameter is absent and
when its value list is empty. -/
theorem queryValue_spec (request : WebRequest) (name : String)
    (default : Option String) :
    (argsGet request.args (utf8Encode name) = none →
      queryValue request name default = .ok default) ∧
    (argsGet request.args (utf8Encode name) = some [] →
      queryValue request name default = .ok default) ∧
    (∀ values v s,
      argsGet request.args (utf8Encode name) = some values →
      values.getLast? = some v →
      utf8Decode v = some s →
      queryValue request name default = .ok (some s)) := by
  refine ⟨fun h => ?_, fun h => ?_, fun values v s h1 h2 h3 => ?_⟩
  · simp [queryValue, h]
  · simp [queryValue, h]
  · simp [queryValue, h1, h2, h3]

/-- A concrete request whose parameter x lists two values. -/
def requestW : WebRequest :=
  { args := [(utf8Encode "x", [utf8Encode "a", utf8Encode "b"])]
    uri := utf8Encode "/ims/app"
    headers := [] }

theorem queryValue_spec_witness :
    queryValue requestW "x" none = .ok (some "b") :=
  (queryValue_spec requestW "x" none).2.2 [utf8Encode "a", utf8Encode "b"]
    (utf8Encode "b") "b" (by decide) (by decide) (by decide)

/-- A URL as the handlers use it (the external hyperlink URL collaborator,
reduced to what the code touches): a path plus a query parameter list. -/
structure Url where
  path : String
  query : List (String × String)
  deriving DecidableEq, Repr

/-- Model of the URL set method of the external hyperlink library: replace any
existing values of the parameter with the single given value. -/
def Url.set (u : Url) (name value : String) : Url :=
  { u with query := u.query.filter (fun kv => kv.1 != name) ++ [(name, value)] }

/-- Bodies the embedded handlers can produce: the RedirectPage element or
plain text. -/
inductive ResponseBody where
  | redirectPage (location : Url)
  | text (message : String)
  deriving DecidableEq, Repr

/-- The observable response the handlers build by mutating the request: the
response code, the Location header (kept structured; its serialization belongs
to the external framework) and the returned body. -/
structure Response where
  code : Nat
  location : Option Url
  body : ResponseBody
  deriving DecidableEq, Repr

/-- Twisted request.getHeader over the modelled header list. -/
def getHeader (request : WebRequest) (name : String) : Option String :=
  (request.headers.find? (fun kv => kv.1 == name)).map Prod.snd

/-- Embeds badRequestResponse with textResponse from _klein.py: code 400
(http.BAD_REQUEST) with the given message, by default Bad request. -/
def badRequestResponse (message : Option String) : Response :=
  { code := 400
    location := none
    body := .text (match message with
      | none => "Bad request"
      | some m => m) }

/-- Embeds forbiddenResponse with textResponse from _klein.py: code 403
(http.FORBIDDEN) with the text Permission denied. -/
def forbiddenResponse : Response :=
  { code := 403, location := none, body := .text "Permission denied" }

/-- The login URL from the external URLs configuration (ims.config), reduced
to a constant location with no query parameters. -/
def loginUrl : Url :=
  { path := "/auth/login", query := [] }

/-- Embeds redirect from src/src/ims/application/_klein.py: with an origin
parameter, the request URI bytes are decoded as UTF-8 and stored into the
location URL under that parameter; a ValueError from the decode yields the
Invalid origin URI bad-request response.  Otherwise the handler sets the
Location header, sets code 302 (http.FOUND) and returns the redirect page. -/
def redirect (request : WebRequest) (location : Url) (origin : Option String) :
    Response :=
  match origin with
  | none =>
    { code := 302, location := some location, body := .redirectPage location }
  | some o =>
    match utf8Decode request.uri with
    | none => badRequestResponse (some "Invalid origin URI")
    | some uriText =>
      let loc := location.set o uriText
      { code := 302, location := some loc, body := .redirectPage loc }

/-- Embeds the notAuthenticatedError handler of Router._registerHandlers in
src/src/ims/application/_klein.py: an X-Requested-With header equal to
XMLHttpRequest yields the forbidden response; every other request is sent
through redirect to the login URL with the request URI as the o origin
parameter. -/
def notAuthenticatedError (request : WebRequest) : Response :=
  match getHeader request "X-Requested-With" with
  | some requestedWith =>
    if requestedWith == "XMLHttpRequest" then forbiddenResponse
    else redirect request loginUrl (some "o")
  | none => redirect request loginUrl (some "o")

/-- A request with no X-Requested-With header whose URI bytes are not valid
UTF-8 (a lone 0xFF byte). -/
def badUriRequest : WebRequest :=
  { args := [], uri := [0xFF], headers := [] }

/-- C9 counterexample: badUriRequest carries no X-Requested-With header, so
the claim demands a 302 redirect to the login URL; the handler instead
answers 400 Bad Request, because decoding the URI bytes raises a ValueError
inside redirect. -/
theorem notAuthenticatedError_not_redirect :
    getHeader badUriRequest "X-Requested-With" = none ∧
    notAuthenticatedError badUriRequest =
      badRequestResponse (some "Invalid origin URI") ∧
    (notAuthenticatedError badUriRequest).code ≠ 302 := by
  refine ⟨rfl, by decide, by decide⟩

/-- C9 amended: a NotAuthenticatedError request whose X-Requested-With header
equals XMLHttpRequest gets the 403 forbidden response; every other such
request whose URI bytes decode as UTF-8 gets a 302 redirect to the login URL
carrying the decoded request URI in the o query parameter; every other such
request whose URI bytes are not valid UTF-8 gets 400 Bad Request. -/
theorem notAuthenticatedError_spec (request : WebRequest) :
    (getHeader request "X-Requested-With" = some "XMLHttpRequest" →
      notAuthenticatedError request = forbiddenResponse ∧
        (notAuthenticatedError request).code = 403) ∧
    (getHeader request "X-Requested-With" ≠ some "XMLHttpRequest" →
      (∀ s, utf8Decode request.uri = some s →
        notAuthenticatedError request =
          { code := 302
            location := some { path := loginUrl.path, query := [("o", s)] }
            body := .redirectPage
              { path := loginUrl.path, query := [("o", s)] } }) ∧
      (utf8Decode request.uri = none →
        notAuthenticatedError request =
          badRequestResponse (some "Invalid origin URI"))) := by
  constructor
  · intro h
    simp [notAuthenticatedError, h, forbiddenResponse]
  · intro h
    have hred : ∀ s, utf8Decode request.uri = some s →
        redirect request loginUrl (some "o") =
          { code := 302
            location := some { path := loginUrl.path, query := [("o", s)] }
            body := .redirectPage
              { path := loginUrl.path, query := [("o", s)] } } := by
      intro s hs
      simp [redirect, hs, Url.set, loginUrl]
    have hbad : utf8Decode request.uri = none →
        redirect request loginUrl (some "o") =
          badRequestResponse (some "Invalid origin URI") := by
      intro hs
      simp [redirect, hs]
    cases hh : getHeader request "X-Requested-With" with
    | none =>
      exact ⟨fun s hs => by simp [notAuthenticatedError, hh, hred s hs],
        fun hs => by simp [notAuthenticatedError, hh, hbad hs]⟩
    | some xrw =>
      have hne : (xrw == "XMLHttpRequest") = false := by
        cases hx : xrw == "XMLHttpRequest" with
        | false => rfl
        | true =>
          have hxe : xrw = "XMLHttpRequest" := eq_of_beq hx
          exact absurd (hxe ▸ hh) h
      exact ⟨fun s hs => by simp [notAuthenticatedError, hh, hne, hred s hs],
        fun hs => by simp [notAuthenticatedError, hh, hne, hbad hs]⟩

/-- A request carrying the XMLHttpRequest marker header. -/
def xhrRequest : WebRequest :=
  { args := []
    uri := utf8Encode "/ims/app"
    headers := [("X-Requested-With", "XMLHttpRequest")] }

theorem notAuthenticatedError_spec_witness :
    notAuthenticatedError xhrRequest = forbiddenResponse ∧
    notAuthenticatedError requestW =
      { code := 302
        location := some { path := loginUrl.path, query := [("o", "/ims/app")] }
        body := .redirectPage
          { path := loginUrl.path, query := [("o", "/ims/app")] } } :=
  ⟨((notAuthenticatedError_spec xhrRequest).1 (by decide)).1,
    ((notAuthenticatedError_spec requestW).2 (by decide)).1 "/ims/app" (by decide)⟩

/-- A session as login.py reads it: the optional user attribute. -/
structure Session where
  user : Option String
  deriving DecidableEq, Repr

/-- A request as the LoginPage renderers see it: just its session. -/
structure LoginRequest where
  session : Session
  deriving DecidableEq, Repr

/-- Embeds LoginPage from src/src/ims/element/login.py: the constructor
stores the failed flag. -/
structure LoginPage where
  failed : Bool
  deriving DecidableEq, Repr

/-- Embeds the if_authn_failed renderer of LoginPage: return the tag when the
page was constructed with failed set, else the empty result (none). -/
def LoginPage.if_authn_failed {α : Type} (page : LoginPage)
    (request : LoginRequest) (tag : α) : Option α :=
  if page.failed then some tag else none

/-- Embeds the if_authz_failed renderer of LoginPage: with failed set the
authentication renderer is responsible, so the empty result; otherwise return
the tag exactly when the request session carries a user. -/
def LoginPage.if_authz_failed {α : Type} (page : LoginPage)
    (request : LoginRequest) (tag : α) : Option α :=
  if page.failed then none
  else
    match request.session.user with
    | none => none
    | some _ => some tag

/-- C10: for every page, request and tag, at most one of the two renderers
produces the tag: if_authn_failed yields it exactly when the page was built
with failed set, while if_authz_failed yields the empty result whenever failed
is set and yields the tag exactly when failed is not set and the session user
is not none. -/
theorem loginPage_renderers (page : LoginPage) (request : LoginRequest)
    (tag : String) :
    (page.if_authn_failed request tag = some tag ↔ page.failed = true) ∧
    (page.failed = true → page.if_authz_failed request tag = none) ∧
    (page.if_authz_failed request tag = some tag ↔
      page.failed = false ∧ request.session.user ≠ none) ∧
    (page.if_authn_failed request tag = none ∨
      page.if_authz_failed request tag = none) := by
  obtain ⟨f⟩ := page
  obtain ⟨⟨u⟩⟩ := request
  cases f <;> cases u <;>
    simp [LoginPage.if_authn_failed, LoginPage.if_authz_failed]

theorem loginPage_renderers_witness :
    LoginPage.if_authz_failed { failed := false }
      { session := { user := some "admin" } } "tag" = some "tag" ∧
    LoginPage.if_authn_failed { failed := true }
      { session := { user := none } } "tag" = some "tag" ∧
    LoginPage.if_authz_failed { failed := true }
      { session := { user := some "admin" } } "tag" = none :=
  ⟨(loginPage_renderers { failed := false }
        { session := { user := some "admin" } } "tag").2.2.1.mpr
      ⟨rfl, by decide⟩,
    (loginPage_renderers { failed := true }
        { session := { user := none } } "tag").1.mpr rfl,
    (loginPage_renderers { failed := true }
        { session := { user := some "admin" } } "tag").2.1 rfl⟩
